import Mathlib

/-!
Shallow embedding of `runner.go` from chmking/boomer: the worker spawner,
the hatch/stop/close lifecycle, and the agent-mode (slave) state machine.

Go channels are modelled by an open/closed flag; closing an already-closed
channel is a runtime panic, modelled by `Option` (`none` = panic).  Side
effects (outbound protocol messages, event-bus publishes, collaborator
calls) are collected in an explicit `Effect` trace list, in program order.
Randomness (`rand.Int63n`, `rand.Float64`) is modelled by oracle
parameters: an index `u` for the uniform-index branch and a rational
`draw` for the `Float64` value in `[0,1)`.  `float64` arithmetic is
modelled exactly over `ℚ`.
-/

namespace Boomer

/-- State-name constants, mirroring the `const` block of runner.go. -/
def stateInit : String := "ready"

def stateHatching : String := "hatching"

def stateRunning : String := "running"

def stateStopped : String := "stopped"

def stateQuitting : String := "quitting"

/-- A registered behaviour unit: `type Task struct { Weight int; Fn func(); Name string }`.
The callable body is identified by its name; only weight and identity matter here. -/
structure Task where
  weight : Int
  name : String
  deriving Repr, DecidableEq

/-- Observable side effects of the runner, in program order. -/
inductive Effect where
  /-- `r.client.sendChannel() <- newMessage(msgType, _, nodeID)` -/
  | send (msgType : String)
  /-- `Events.Publish(topic)` -/
  | publish (topic : String)
  /-- `r.outputOnStart()` -/
  | outputOnStart
  /-- `r.outputOnStop()` -/
  | outputOnStop
  /-- `r.outputOnEevent(data)` -/
  | outputOnEvent
  /-- `r.stats.clearStatsChan <- true` -/
  | clearStats
  /-- `close(r.stopChan)` -/
  | closeStopChan
  /-- `r.rateLimiter.Start()` -/
  | rateLimiterStart
  /-- `r.rateLimiter.Stop()` -/
  | rateLimiterStop
  /-- `go r.spawnWorkers(spawnCount, r.stopChan, hatchCompleteFunc)` -/
  | goSpawnWorkers (spawnCount : Int)
  /-- `r.stats.close()` -/
  | statsClose
  /-- `r.client.close()` -/
  | clientClose
  /-- `data["user_count"] = r.numClients` -/
  | attachUserCount (numClients : Int)
  deriving Repr, DecidableEq

/-- The message types actually sent to the controller in an effect trace,
in order. -/
def sentMessages (effs : List Effect) : List String :=
  effs.filterMap fun e =>
    match e with
    | .send s => some s
    | _ => none

/-- `func (r *runner) getWeightSum() (weightSum int)`: sum of task weights. -/
def getWeightSum (tasks : List Task) : Int :=
  tasks.foldl (fun acc t => acc + t.weight) 0

/-- The inner selection loop of `spawnWorkers` for nonzero `weightSum`:
walk the tasks in registration order, `percent := weight/weightSum`, and
select the first task with `draw <= percent` (the Go code writes
`index <= percent` and breaks). -/
def selectLoop (weightSum : Int) (draw : ℚ) : List Task → Option Task
  | [] => none
  | t :: rest =>
    if draw ≤ (t.weight : ℚ) / (weightSum : ℚ) then some t
    else selectLoop weightSum draw rest

/-- One selection event of a worker goroutine: if the precomputed weight
sum is zero, index uniformly (oracle `u` stands for `random.Int63n(len)`);
otherwise compare a single draw (oracle for `random.Float64()`) against
each task's own weight fraction in order. -/
def selectTask (tasks : List Task) (u : Nat) (draw : ℚ) : Option Task :=
  if getWeightSum tasks = 0 then tasks[u]?
  else selectLoop (getWeightSum tasks) draw tasks

/-- The task a worker-loop iteration actually runs (`if selected != nil`
guards `r.safeRun(selected.Fn)`): `none` means no task body executes in
that iteration and the loop silently proceeds. -/
def iterationTask (tasks : List Task) (u : Nat) (draw : ℚ) : Option Task :=
  selectTask tasks u draw

/-- Result of one `spawnWorkers` call: the final `numClients` counter, the
number of worker goroutines actually launched, and whether the
ramp-up-complete point at the bottom of the loop was reached (where
`hatchCompleteFunc` is invoked when non-nil). -/
structure SpawnResult where
  numClients : Int
  launched : Nat
  hatchCompleteFired : Bool
  deriving Repr, DecidableEq

/-- The `for i := 0; i < spawnCount; i++` loop of `spawnWorkers`.
`cancel i` tells whether the non-blocking `select` on `quit` observes the
closed channel just before launch number `i` (the oracle for goroutine
scheduling); if so the function returns early.  Each launch performs
`atomic.AddInt32(&r.numClients, 1)`. -/
def spawnGo (cancel : Nat → Bool) : Nat → Nat → Int → SpawnResult
  | 0, _, n => ⟨n, 0, true⟩
  | k + 1, i, n =>
    if cancel i then ⟨n, 0, false⟩
    else
      let res := spawnGo cancel k (i + 1) (n + 1)
      ⟨res.numClients, res.launched + 1, res.hatchCompleteFired⟩

/-- `func (r *runner) spawnWorkers(spawnCount int, quit chan bool, hatchCompleteFunc func())`,
starting from counter value `numClients` (the loop body runs while
`i < spawnCount`, hence `Int.toNat`). -/
def spawnWorkers (cancel : Nat → Bool) (spawnCount : Int) (numClients : Int) : SpawnResult :=
  spawnGo cancel spawnCount.toNat 0 numClients

/-! ## Runner core: hatch / stop / close -/

/-- The lifecycle fields of `type runner struct` that the claims touch.
`stopChanOpen` models the per-cycle `stopChan`. -/
structure RunnerCore where
  numClients : Int
  hatchRate : Int
  stopChanOpen : Bool
  rateLimitEnabled : Bool
  deriving Repr, DecidableEq

/-- `func (r *runner) startHatching(spawnCount int, hatchRate int, hatchCompleteFunc func())`:
clear stats, fresh `stopChan`, set `hatchRate`, reset `numClients` to 0,
notify output sinks, then launch `spawnWorkers` in the background. -/
def startHatching (r : RunnerCore) (spawnCount hatchRate : Int) : RunnerCore × List Effect :=
  ({ r with hatchRate := hatchRate, numClients := 0, stopChanOpen := true },
   [.clearStats, .outputOnStart, .goSpawnWorkers spawnCount])

/-- `func (r *runner) stop()`: stop outputs, publish `boomer:stop`,
close the cycle's `stopChan`, stop the rate limiter when enabled.
(Nothing in runner.go subscribes to `boomer:stop`, so the publish has no
further effect here.) -/
def runnerStop (r : RunnerCore) : RunnerCore × List Effect :=
  ({ r with stopChanOpen := false },
   [.outputOnStop, .publish "boomer:stop", .closeStopChan] ++
     (if r.rateLimitEnabled then [.rateLimiterStop] else []))

/-- `close(ch)` on a Go channel: faults (panics) when the channel is
already closed, otherwise the channel becomes closed. -/
def goChanClose (isOpen : Bool) : Option Bool :=
  if isOpen then some false else none

/-- The fields of `localRunner` that `close()` touches: `r.stats != nil`
and the `closeChan`. -/
structure LocalLifecycle where
  statsPresent : Bool
  closeChanOpen : Bool
  deriving Repr, DecidableEq

/-- `newLocalRunner` always sets `r.stats = newRequestStats()` and
`r.closeChan = make(chan bool)`. -/
def newLocalLifecycle : LocalLifecycle :=
  { statsPresent := true, closeChanOpen := true }

/-- `func (r *localRunner) close()`: close stats when present, then
`close(r.closeChan)` — which panics when `closeChan` is already closed. -/
def localClose (r : LocalLifecycle) : Option (LocalLifecycle × List Effect) :=
  (goChanClose r.closeChanOpen).map fun o =>
    ({ r with closeChanOpen := o },
     (if r.statsPresent then [Effect.statsClose] else []))

/-- The fields of `slaveRunner` that `close()` touches. -/
structure SlaveLifecycle where
  statsPresent : Bool
  clientPresent : Bool
  closeChanOpen : Bool
  deriving Repr, DecidableEq

/-- `newSlaveRunner` sets `r.stats = newRequestStats()` and
`r.closeChan = make(chan bool)`; `r.client` is set by `run()`. -/
def newSlaveLifecycle : SlaveLifecycle :=
  { statsPresent := true, clientPresent := true, closeChanOpen := true }

/-- `func (r *slaveRunner) close()`: close stats and client when present,
then `close(r.closeChan)` — which panics when already closed. -/
def slaveClose (r : SlaveLifecycle) : Option (SlaveLifecycle × List Effect) :=
  (goChanClose r.closeChanOpen).map fun o =>
    ({ r with closeChanOpen := o },
     (if r.statsPresent then [Effect.statsClose] else []) ++
       (if r.clientPresent then [Effect.clientClose] else []))

/-! ## Agent mode: inbound payload decoding -/

/-- A dynamically-typed value from the msgpack payload
(`map[string]interface{}`); `vnil` is Go `nil`, also the zero value for a
missing key. -/
inductive GoVal where
  | vfloat (q : ℚ)
  | vint (n : Int)
  | vuint (u : Nat)
  | vnil
  deriving Repr, DecidableEq

/-- Go `int(f)` for a `float64` value: truncation toward zero
(`Int.div` is T-division). -/
def truncFloatToInt (q : ℚ) : Int :=
  q.num.tdiv (q.den : Int)

/-- Go `int(u)` for a `uint64` value on a 64-bit platform: the low 64
bits reinterpreted as a signed integer. -/
def uint64ToInt64 (u : Nat) : Int :=
  if u % 2 ^ 64 < 2 ^ 63 then ((u % 2 ^ 64 : Nat) : Int)
  else ((u % 2 ^ 64 : Nat) : Int) - 2 ^ 64

/-- The two payload fields `onHatchMessage` reads from `msg.Data`. -/
structure HatchPayload where
  hatch_rate : GoVal
  num_clients : GoVal
  deriving Repr, DecidableEq

/-- `hatchRate := int(rate.(float64))`: the unchecked type assertion
panics (`none`) on any non-float value, including `nil` for a missing
key. -/
def parseHatchRate : GoVal → Option Int
  | .vfloat q => some (truncFloatToInt q)
  | _ => none

/-- `if _, ok := clients.(uint64); ok { workers = int(clients.(uint64)) }
else { workers = int(clients.(int64)) }`: unsigned or signed accepted;
anything else panics on the `int64` assertion. -/
def parseNumClients : GoVal → Option Int
  | .vuint u => some (uint64ToInt64 u)
  | .vint n => some n
  | _ => none

/-- The decoding prefix of `onHatchMessage`, in source order (rate first):
yields `(workers, hatchRate)` or a panic. -/
def parseHatch (d : HatchPayload) : Option (Int × Int) :=
  (parseHatchRate d.hatch_rate).bind fun rate =>
    (parseNumClients d.num_clients).map fun workers => (workers, rate)

/-! ## Agent mode: the slave state machine -/

/-- The slave runner: the shared lifecycle core plus the state-machine
state and whether `run()` has executed
`Events.Subscribe("boomer:quit", r.onQuiting)`. -/
structure SlaveRunner extends RunnerCore where
  state : String
  quitSubscribed : Bool
  deriving Repr, DecidableEq

/-- An inbound controller message, restricted to the fields `onMessage`
reads: `msg.Type` and (for hatch) the two numeric payload entries. -/
structure InMessage where
  msgType : String
  data : HatchPayload
  deriving Repr, DecidableEq

/-- `func (r *slaveRunner) onQuiting()`: send an outbound `quit` unless
the state is already `quitting`. -/
def onQuiting (r : SlaveRunner) : List Effect :=
  if r.state ≠ stateQuitting then [.send "quit"] else []

/-- `Events.Publish("boomer:quit")`: the publish itself, plus the
synchronous `onQuiting` callback when `run()` has subscribed it. -/
def publishBoomerQuit (r : SlaveRunner) : List Effect :=
  .publish "boomer:quit" :: (if r.quitSubscribed then onQuiting r else [])

/-- `func (r *slaveRunner) onHatchMessage(msg *message)`: decode the
payload (panicking on malformed fields), send `hatching`, publish
`boomer:hatch`, start the rate limiter when enabled, then
`startHatching(workers, hatchRate, r.hatchComplete)`. -/
def onHatchMessage (r : SlaveRunner) (d : HatchPayload) : Option (SlaveRunner × List Effect) :=
  match parseHatch d with
  | none => none
  | some (workers, rate) =>
    let sh := startHatching r.toRunnerCore workers rate
    some ({ r with toRunnerCore := sh.1 },
      [.send "hatching", .publish "boomer:hatch"] ++
        (if r.rateLimitEnabled then [.rateLimiterStart] else []) ++ sh.2)

/-- `func (r *slaveRunner) onMessage(msg *message)`: the controller-driven
state machine, switching on `r.state` then `msg.Type`; unknown states or
message types fall through with no action.  `none` models a panic inside
the handler (which faults the listener goroutine). -/
def onMessage (r : SlaveRunner) (m : InMessage) : Option (SlaveRunner × List Effect) :=
  if r.state = stateInit then
    if m.msgType = "hatch" then
      onHatchMessage { r with state := stateHatching } m.data
    else if m.msgType = "quit" then
      some (r, publishBoomerQuit r)
    else some (r, [])
  else if r.state = stateHatching ∨ r.state = stateRunning then
    if m.msgType = "hatch" then
      let r1 : SlaveRunner := { r with state := stateHatching }
      let st := runnerStop r1.toRunnerCore
      (onHatchMessage { r1 with toRunnerCore := st.1 } m.data).map fun p =>
        (p.1, st.2 ++ p.2)
    else if m.msgType = "stop" then
      let st := runnerStop r.toRunnerCore
      some ({ r with toRunnerCore := st.1, state := stateInit },
        st.2 ++ [.send "client_stopped", .send "client_ready"])
    else if m.msgType = "quit" then
      let st := runnerStop r.toRunnerCore
      some ({ r with toRunnerCore := st.1, state := stateInit },
        st.2 ++ publishBoomerQuit { r with toRunnerCore := st.1 })
    else some (r, [])
  else if r.state = stateStopped then
    if m.msgType = "hatch" then
      onHatchMessage { r with state := stateHatching } m.data
    else if m.msgType = "quit" then
      some ({ r with state := stateInit }, publishBoomerQuit r)
    else some (r, [])
  else some (r, [])

/-- The effect trace of an `onMessage` outcome (empty when it panicked). -/
def effectsOf (o : Option (SlaveRunner × List Effect)) : List Effect :=
  (o.map Prod.snd).getD []

/-! ## Agent mode: the stats relay loop body -/

/-- One iteration of the `case data := <-r.stats.messageToRunnerChan`
branch in `slaveRunner.run`: when the state is `ready` or `stopped` the
event is skipped with `continue`; otherwise `user_count` is attached, the
payload is forwarded as a `stats` message, and the output sinks are
notified. -/
def slaveRelayStep (state : String) (numClients : Int) : List Effect :=
  if state = stateInit ∨ state = stateStopped then []
  else [.attachUserCount numClients, .send "stats", .outputOnEvent]

/-! ## Concrete example configurations used by witnesses and
counterexamples -/

/-- A slave runner as `run()` leaves it right after `client_ready`:
state `ready`, `onQuiting` subscribed. -/
def readyRunner : SlaveRunner :=
  { numClients := 0, hatchRate := 0, stopChanOpen := false,
    rateLimitEnabled := false, state := stateInit, quitSubscribed := true }

/-- A slave runner mid-test: state `running` after a hatch of 3. -/
def runningRunner : SlaveRunner :=
  { numClients := 3, hatchRate := 1, stopChanOpen := true,
    rateLimitEnabled := false, state := stateRunning, quitSubscribed := true }

/-- Two equally-weighted tasks, as in the spec's example scenario. -/
def twoTasks : List Task :=
  [{ weight := 1, name := "A" }, { weight := 1, name := "B" }]

/-! ## Helper lemmas -/

theorem selectLoop_eq_find (weightSum : Int) (draw : ℚ) (tasks : List Task) :
    selectLoop weightSum draw tasks =
      tasks.find? fun t => decide (draw ≤ (t.weight : ℚ) / (weightSum : ℚ)) := by
  induction tasks with
  | nil => rfl
  | cons t rest ih =>
    by_cases h : draw ≤ (t.weight : ℚ) / (weightSum : ℚ) <;>
      simp [selectLoop, List.find?_cons, h, ih]

theorem selectLoop_none (weightSum : Int) (draw : ℚ) (tasks : List Task)
    (hall : ∀ t ∈ tasks, (t.weight : ℚ) / (weightSum : ℚ) < draw) :
    selectLoop weightSum draw tasks = none := by
  induction tasks with
  | nil => rfl
  | cons t rest ih =>
    have h1 : ¬draw ≤ (t.weight : ℚ) / (weightSum : ℚ) :=
      not_le.mpr (hall t (List.mem_cons_self t rest))
    simp only [selectLoop, if_neg h1]
    exact ih fun x hx => hall x (List.mem_cons_of_mem t hx)

theorem spawnGo_numClients (c : Nat → Bool) (k i : Nat) (n : Int) :
    (spawnGo c k i n).numClients = n + (spawnGo c k i n).launched := by
  induction k generalizing i n with
  | zero => simp [spawnGo]
  | succ k ih =>
    by_cases h : c i = true
    · simp [spawnGo, h]
    · simp only [spawnGo, Bool.not_eq_true] at h ⊢
      rw [if_neg (by simp [h])]
      have := ih (i + 1) (n + 1)
      push_cast at this ⊢
      omega

theorem spawnGo_nocancel (c : Nat → Bool) (k i : Nat) (n : Int)
    (h : ∀ j, c j = false) : spawnGo c k i n = ⟨n + k, k, true⟩ := by
  induction k generalizing i n with
  | zero => simp [spawnGo]
  | succ k ih =>
    have hi : ¬c i = true := by simp [h i]
    simp only [spawnGo, if_neg hi, ih (i + 1) (n + 1)]
    refine congrArg (fun m => SpawnResult.mk m (k + 1) true) ?_
    push_cast
    ring

theorem spawnGo_fired_iff (c : Nat → Bool) (k i : Nat) (n : Int) :
    (spawnGo c k i n).hatchCompleteFired = true ↔ ∀ j < k, c (i + j) = false := by
  induction k generalizing i n with
  | zero => simp [spawnGo]
  | succ k ih =>
    by_cases h : c i = true
    · simp only [spawnGo, if_pos h]
      constructor
      · intro hab
        exact Bool.noConfusion hab
      · intro hall
        have h0 := hall 0 (Nat.succ_pos k)
        rw [Nat.add_zero, h] at h0
        exact Bool.noConfusion h0
    · simp only [spawnGo, if_neg h]
      rw [ih (i + 1) (n + 1)]
      constructor
      · intro hall j hj
        cases j with
        | zero =>
          simpa using h
        | succ j =>
          have h2 := hall j (Nat.lt_of_succ_lt_succ hj)
          rw [show i + (j + 1) = i + 1 + j by omega]
          exact h2
      · intro hall j hj
        have h2 := hall (j + 1) (Nat.succ_lt_succ hj)
        rw [show i + 1 + j = i + (j + 1) by omega]
        exact h2

theorem spawnGo_abort (c : Nat → Bool) (k i : Nat) (n : Int)
    (h : (spawnGo c k i n).hatchCompleteFired = false) :
    (spawnGo c k i n).launched < k ∧
      c (i + (spawnGo c k i n).launched) = true ∧
      ∀ j < (spawnGo c k i n).launched, c (i + j) = false := by
  induction k generalizing i n with
  | zero => simp [spawnGo] at h
  | succ k ih =>
    by_cases hc : c i = true
    · simp only [spawnGo, if_pos hc]
      exact ⟨Nat.succ_pos k, by simpa using hc, by omega⟩
    · simp only [spawnGo, if_neg hc] at h ⊢
      obtain ⟨h1, h2, h3⟩ := ih (i + 1) (n + 1) h
      refine ⟨Nat.succ_lt_succ h1, ?_, ?_⟩
      · rw [show i + ((spawnGo c k (i + 1) (n + 1)).launched + 1) =
          i + 1 + (spawnGo c k (i + 1) (n + 1)).launched by omega]
        exact h2
      · intro j hj
        cases j with
        | zero =>
          simpa using hc
        | succ j =>
          have h4 := h3 j (by omega)
          rw [show i + (j + 1) = i + 1 + j by omega]
          exact h4

/-! ## Claim theorems -/

/-- C1: In agent mode, whenever the state machine is in state `hatching`
or `running` and receives an inbound `stop` message, it calls `stop()`
(whose full effect trace appears first, closing the cycle's stop
channel), sends exactly the outbound messages `client_stopped` followed
by `client_ready` to the controller, and the state after the transition
is `ready`. -/
theorem stop_transition_spec (r : SlaveRunner) (m : InMessage)
    (hs : r.state = stateHatching ∨ r.state = stateRunning)
    (hm : m.msgType = "stop") :
    onMessage r m =
      some ({ r with toRunnerCore := (runnerStop r.toRunnerCore).1, state := stateInit },
        (runnerStop r.toRunnerCore).2 ++ [.send "client_stopped", .send "client_ready"]) ∧
    sentMessages (effectsOf (onMessage r m)) = ["client_stopped", "client_ready"] := by
  have heq : onMessage r m =
      some ({ r with toRunnerCore := (runnerStop r.toRunnerCore).1, state := stateInit },
        (runnerStop r.toRunnerCore).2 ++ [.send "client_stopped", .send "client_ready"]) := by
    rcases hs with h | h <;>
      simp [onMessage, h, hm, stateInit, stateHatching, stateRunning]
  refine ⟨heq, ?_⟩
  rw [heq]
  cases hrl : r.rateLimitEnabled <;>
    simp [effectsOf, sentMessages, runnerStop, hrl]

/-- Witness for C1: the concrete running runner, inbound `stop`. -/
theorem stop_transition_spec_witness :
    (runningRunner.state = stateHatching ∨ runningRunner.state = stateRunning) ∧
    sentMessages (effectsOf (onMessage runningRunner ⟨"stop", ⟨.vnil, .vnil⟩⟩)) =
      ["client_stopped", "client_ready"] :=
  ⟨Or.inr rfl,
    (stop_transition_spec runningRunner ⟨"stop", ⟨.vnil, .vnil⟩⟩ (Or.inr rfl) rfl).2⟩

/-- C2 (code evidence): `close()` is NOT idempotent in either mode: the
first call succeeds, and the second call reaches `close(r.closeChan)` on
an already-closed channel, which panics — there is no guard. -/
theorem double_close_faults :
    (localClose newLocalLifecycle).isSome = true ∧
    ((localClose newLocalLifecycle).bind fun p => localClose p.1) = none ∧
    (slaveClose newSlaveLifecycle).isSome = true ∧
    ((slaveClose newSlaveLifecycle).bind fun p => slaveClose p.1) = none :=
  ⟨rfl, rfl, rfl, rfl⟩

/-- C3: one selection event: when the weight sum is zero the task at the
drawn index is selected; otherwise the single uniform draw is compared,
in registration order, against each task's own weight divided by the
total sum, and the first task whose individual fraction is ≥ the draw is
selected. -/
theorem selectTask_spec (tasks : List Task) (u : Nat) (draw : ℚ)
    (hne : tasks ≠ []) (hw : ∀ t ∈ tasks, 0 ≤ t.weight) (hu : u < tasks.length)
    (hd0 : 0 ≤ draw) (hd1 : draw < 1) :
    (getWeightSum tasks = 0 → selectTask tasks u draw = some (tasks.get ⟨u, hu⟩)) ∧
    (getWeightSum tasks ≠ 0 →
      selectTask tasks u draw =
        tasks.find? fun t => decide (draw ≤ (t.weight : ℚ) / (getWeightSum tasks : ℚ))) := by
  constructor
  · intro h
    simp [selectTask, h, List.getElem?_eq_getElem hu]
  · intro h
    simp [selectTask, h, selectLoop_eq_find]

/-- Witness for C3: two unit-weight tasks, index 0, draw 1/4. -/
theorem selectTask_spec_witness :
    (getWeightSum twoTasks = 0 →
      selectTask twoTasks 0 (1 / 4) = some (twoTasks.get ⟨0, by decide⟩)) ∧
    (getWeightSum twoTasks ≠ 0 →
      selectTask twoTasks 0 (1 / 4) =
        twoTasks.find? fun t =>
          decide ((1 / 4 : ℚ) ≤ (t.weight : ℚ) / (getWeightSum twoTasks : ℚ))) :=
  selectTask_spec twoTasks 0 (1 / 4) (by decide)
    (by intro t ht; fin_cases ht <;> decide) (by decide)
    (by norm_num) (by norm_num)

/-- C10: when the weight sum is positive but the draw exceeds every
task's individual weight fraction, the selection yields no task and the
worker-loop iteration executes nothing. -/
theorem selection_can_miss (tasks : List Task) (u : Nat) (draw : ℚ)
    (hpos : 0 < getWeightSum tasks)
    (hall : ∀ t ∈ tasks, (t.weight : ℚ) / (getWeightSum tasks : ℚ) < draw) :
    iterationTask tasks u draw = none := by
  have hne : ¬getWeightSum tasks = 0 := by omega
  simp only [iterationTask, selectTask, if_neg hne]
  exact selectLoop_none _ _ _ hall

/-- Witness for C10: two unit-weight tasks (each fraction 1/2) and a
draw of 3/4: no task is selected. -/
theorem selection_can_miss_witness :
    0 < getWeightSum twoTasks ∧ iterationTask twoTasks 0 (3 / 4) = none :=
  ⟨by decide,
    selection_can_miss twoTasks 0 (3 / 4) (by decide)
      (by intro t ht; fin_cases ht <;> norm_num [getWeightSum, twoTasks, List.foldl])⟩

/-- C4 counterexample: a hatch message whose `hatch_rate` field arrives
as a signed integer is NOT accepted: the unchecked `float64` type
assertion in `onHatchMessage` panics, so neither field is normalized and
`startHatching` is never reached. -/
theorem signed_hatch_rate_not_accepted :
    onMessage readyRunner ⟨"hatch", ⟨.vint 2, .vint 5⟩⟩ = none := rfl

/-- C4 (amended): processing a hatch message accepts the worker count in
either signed or unsigned integer representation and normalizes it to a
signed integer, but accepts the hatch rate only as a float64 (truncated
toward zero to a signed integer); the two normalized values are then
handed to `startHatching`.  Integer-typed hatch rates are rejected by
panic. -/
theorem hatch_payload_normalization (q : ℚ) (n : Int) (u : Nat) (k : Int) (v : Nat)
    (r : SlaveRunner) :
    parseHatch ⟨.vfloat q, .vint n⟩ = some (n, truncFloatToInt q) ∧
    parseHatch ⟨.vfloat q, .vuint u⟩ = some (uint64ToInt64 u, truncFloatToInt q) ∧
    parseHatchRate (.vint k) = none ∧
    parseHatchRate (.vuint v) = none ∧
    onHatchMessage r ⟨.vfloat q, .vint n⟩ =
      some ({ r with toRunnerCore := (startHatching r.toRunnerCore n (truncFloatToInt q)).1 },
        [.send "hatching", .publish "boomer:hatch"] ++
          (if r.rateLimitEnabled then [.rateLimiterStart] else []) ++
          (startHatching r.toRunnerCore n (truncFloatToInt q)).2) := by
  refine ⟨rfl, rfl, rfl, rfl, ?_⟩
  simp [onHatchMessage, parseHatch, parseHatchRate, parseNumClients]

/-- C5 (code evidence): a hatch message with a missing `hatch_rate`
field, or a wrongly-typed `num_clients` field, faults the handler: the
unchecked type assertions panic and the panic propagates out of
`onMessage`, killing the listener goroutine — there is no recoverable
parse error, and no hatch cycle starts. -/
theorem malformed_hatch_payload_panics :
    onMessage readyRunner ⟨"hatch", ⟨.vnil, .vint 5⟩⟩ = none ∧
    onMessage readyRunner ⟨"hatch", ⟨.vfloat 1, .vfloat 5⟩⟩ = none :=
  ⟨rfl, rfl⟩

/-- C6 counterexample: an inbound `quit` received in state `running`
DOES echo an outbound `quit` back to the controller: `onMessage`
publishes `boomer:quit` and the subscribed `onQuiting` handler sends
`quit`, since the state is not `quitting`. -/
theorem inbound_quit_echoes_quit :
    sentMessages (effectsOf (onMessage runningRunner ⟨"quit", ⟨.vnil, .vnil⟩⟩)) =
      ["quit"] := rfl

/-- C6 (amended): once `run()` has subscribed `onQuiting` to
`boomer:quit`, every inbound `quit` processed in a reachable state
(`ready`, `hatching`, `running`, `stopped`) causes an outbound `quit` to
the controller, because `onQuiting` sends unless the state is `quitting`
and no transition ever reaches `quitting`; were the state `quitting`,
the guard would suppress the send. -/
theorem inbound_quit_sends_quit (r : SlaveRunner) (m : InMessage)
    (hsub : r.quitSubscribed = true) (hm : m.msgType = "quit")
    (hst : r.state = stateInit ∨ r.state = stateHatching ∨
      r.state = stateRunning ∨ r.state = stateStopped) :
    Effect.send "quit" ∈ effectsOf (onMessage r m) ∧
    onQuiting { r with state := stateQuitting } = [] := by
  constructor
  · rcases hst with h | h | h | h <;>
      simp [onMessage, h, hm, effectsOf, publishBoomerQuit, onQuiting, hsub,
        stateInit, stateHatching, stateRunning, stateStopped, stateQuitting]
  · simp [onQuiting, stateQuitting]

/-- Witness for C6 (amended): the concrete running runner. -/
theorem inbound_quit_sends_quit_witness :
    runningRunner.quitSubscribed = true ∧
    Effect.send "quit" ∈ effectsOf (onMessage runningRunner ⟨"quit", ⟨.vnil, .vnil⟩⟩) :=
  ⟨rfl, (inbound_quit_sends_quit runningRunner ⟨"quit", ⟨.vnil, .vnil⟩⟩ rfl rfl
    (Or.inr (Or.inr (Or.inl rfl)))).1⟩

/-- C7: `startHatching` resets `numClients` to zero before the spawner
runs; the spawner increments the counter exactly once per launched
worker (the final counter is the start value plus the launch count); and
hatching `N` workers with no cancellation ends with `numClients = N` and
the ramp-up complete. -/
theorem activeWorkerCount_accounting (r : RunnerCore) (spawnCount hatchRate : Int)
    (cancel : Nat → Bool) (N : Nat) (hnc : ∀ i, cancel i = false) :
    (startHatching r spawnCount hatchRate).1.numClients = 0 ∧
    (∀ (c : Nat → Bool) (k i : Nat) (n : Int),
      (spawnGo c k i n).numClients = n + (spawnGo c k i n).launched) ∧
    spawnWorkers cancel ((N : Nat) : Int) 0 = ⟨(N : Int), N, true⟩ := by
  refine ⟨rfl, spawnGo_numClients, ?_⟩
  unfold spawnWorkers
  rw [Int.toNat_natCast, spawnGo_nocancel cancel N 0 0 hnc]
  simp

/-- Witness for C7: ten workers, never-cancelled signal. -/
theorem activeWorkerCount_accounting_witness :
    (∀ i : Nat, (fun _ : Nat => false) i = false) ∧
    spawnWorkers (fun _ => false) (((10 : Nat) : Nat) : Int) 0 = ⟨(10 : Int), 10, true⟩ :=
  ⟨fun _ => rfl,
    (activeWorkerCount_accounting ⟨0, 0, false, false⟩ 0 0 (fun _ => false) 10
      fun _ => rfl).2.2⟩

/-- C8: the ramp-up-complete callback point is reached iff none of the
`N` pre-launch checks observed the cancellation signal; on an abort the
callback never fires, the launch count stops strictly short of `N` at
the first observed cancellation, and every earlier check observed
nothing. -/
theorem hatchComplete_iff_full_rampup (cancel : Nat → Bool) (N : Nat) :
    ((spawnWorkers cancel ((N : Nat) : Int) 0).hatchCompleteFired = true ↔
      ∀ j < N, cancel j = false) ∧
    ((spawnWorkers cancel ((N : Nat) : Int) 0).hatchCompleteFired = false →
      (spawnWorkers cancel ((N : Nat) : Int) 0).launched < N ∧
      cancel ((spawnWorkers cancel ((N : Nat) : Int) 0).launched) = true ∧
      ∀ j < (spawnWorkers cancel ((N : Nat) : Int) 0).launched, cancel j = false) := by
  constructor
  · unfold spawnWorkers
    rw [Int.toNat_natCast]
    simpa using spawnGo_fired_iff cancel N 0 0
  · intro h
    unfold spawnWorkers at h ⊢
    rw [Int.toNat_natCast] at h ⊢
    simpa using spawnGo_abort cancel N 0 0 h

/-- Witness for C8: cancellation observed from the third check on, in a
spawn of four: the callback does not fire and only two workers launch. -/
theorem hatchComplete_iff_full_rampup_witness :
    (spawnWorkers (fun i => decide (2 ≤ i)) (((4 : Nat) : Nat) : Int) 0).hatchCompleteFired
        = false ∧
    (spawnWorkers (fun i => decide (2 ≤ i)) (((4 : Nat) : Nat) : Int) 0).launched < 4 :=
  ⟨by decide,
    ((hatchComplete_iff_full_rampup (fun i => decide (2 ≤ i)) 4).2 (by decide)).1⟩

/-- C9 counterexample: in agent mode with state `ready`, a drained stats
event is skipped entirely by the `continue`: nothing is attached and the
event is NOT fanned out to the output sinks (nor forwarded),
contradicting the claim that only controller forwarding is
suppressed. -/
theorem relay_drops_event_when_ready :
    slaveRelayStep stateInit 3 = [] ∧
    Effect.outputOnEvent ∉ slaveRelayStep stateInit 3 :=
  ⟨rfl, by decide⟩

/-- C9 (amended): the agent-mode relay body treats a drained event
atomically: when the state is `ready` or `stopped` the event is dropped
entirely (no worker-count attachment, no `stats` forwarding, no sink
fan-out); in every other state the worker count is attached and the
event is both forwarded to the controller and fanned out to the output
sinks. -/
theorem relay_step_characterization (state : String) (numClients : Int) :
    (Effect.send "stats" ∈ slaveRelayStep state numClients ↔
      ¬(state = stateInit ∨ state = stateStopped)) ∧
    (Effect.outputOnEvent ∈ slaveRelayStep state numClients ↔
      Effect.send "stats" ∈ slaveRelayStep state numClients) ∧
    (Effect.attachUserCount numClients ∈ slaveRelayStep state numClients ↔
      Effect.send "stats" ∈ slaveRelayStep state numClients) := by
  by_cases h : state = stateInit ∨ state = stateStopped <;>
    simp [slaveRelayStep, h]

end Boomer
